import Mathlib

/-
Verification of the ScreenSnap repository (src/screensnap.py) against its
natural-language specification.  The Python module is shallowly embedded:
pure string manipulation becomes Lean functions on String / List Char,
Python exceptions become an explicit error type threaded through Except,
and the operating-system backend (PIL ImageGrab / win32 capture) is
modelled as an explicit outcome parameter describing whether the grab or
the save step succeeds or raises, and with which exception class.
-/

namespace ScreenSnap

/-- Python exception values raised by the screensnap module.  `valueError`
covers both the InvalidFilename and InvalidFormat conditions of the spec
(both are `ValueError` in the source); `runtimeError` is the spec's
`CaptureFailure`; `keyError` and `typeError` arise from subscripting the
loaded configuration object in `ScreenSnap.__init__`. -/
inductive PyExc where
  | valueError (msg : String)
  | runtimeError (msg : String)
  | keyError (key : String)
  | typeError (msg : String)
  deriving DecidableEq, Repr

/-- JSON values, as produced by `json.load` in `ScreenSnapConfig._load_config`. -/
inductive Json where
  | jnull
  | jbool (b : Bool)
  | jnum (n : Int)
  | jstr (s : String)
  | jarr (xs : List Json)
  | jobj (fields : List (String × Json))

/-- Observable states of the preferences file at `config_path`, as
distinguished by `ScreenSnapConfig._load_config`: the file may be absent
(`Path.exists` is false), unreadable (`open` raises `IOError`), hold text
that is not JSON (`json.load` raises `JSONDecodeError`), or hold a parsed
JSON document. -/
inductive FileState where
  | absent
  | unreadable
  | malformed
  | content (j : Json)

/-- Embeds `ScreenSnapConfig._default_config`. -/
def defaultConfig : Json :=
  .jobj [("version", .jstr "1.0.0"), ("output_dir", .jstr "."),
         ("format", .jstr "png"), ("include_timestamp", .jbool true)]

/-- Embeds `ScreenSnapConfig._load_config`: an existing readable JSON file is
parsed and returned as-is (whatever JSON value it holds); an absent file, an
`IOError` or a `JSONDecodeError` all fall back to the defaults. -/
def loadConfig : FileState → Json
  | .content j => j
  | _ => defaultConfig

/-- Boolean list-prefix test, the workhorse for the embeddings of Python's
`str.startswith` and `str.endswith`. -/
def listPre : List Char → List Char → Bool
  | [], _ => true
  | _ :: _, [] => false
  | a :: as, b :: bs => a == b && listPre as bs

/-- Embeds Python `s.startswith(t)`. -/
def pyStartsWith (s t : String) : Bool :=
  listPre t.data s.data

/-- Embeds Python `s.endswith(t)`. -/
def pyEndsWith (s t : String) : Bool :=
  listPre t.data.reverse s.data.reverse

/-- Embeds Python `s.lower()` (ASCII case folding, which is all the source
ever applies it to: format selectors drawn from ASCII letters). -/
def pyLower (s : String) : String :=
  ⟨s.data.map Char.toLower⟩

/-- Embeds `os.path.basename` for POSIX separators: everything after the
last `/` of the string.  (On Windows `ntpath.basename` also splits on the
backslash; the source additionally rejects the backslash as an invalid
character, so both platforms reject the same inputs — see the C1 theorem.) -/
def posixBasename (s : String) : String :=
  ⟨(s.data.reverse.takeWhile (fun c => c != '/')).reverse⟩

/-- A single-quote character, used verbatim inside the source's error
messages. -/
def squoteStr : String :=
  String.singleton (Char.ofNat 39)

/-- The list `invalid_chars` of `ScreenSnap._validate_filename`, in source
order. -/
def invalidChars : List Char :=
  ['<', '>', ':', '"', '/', '\\', '|', '?', '*']

/-- The reserved characters named by the spec's claim C1, i.e. the
`invalid_chars` of the source minus the two path separators. -/
def reservedChars : List Char :=
  ['<', '>', ':', '"', '|', '?', '*']

/-- Embeds `ScreenSnap._validate_filename`: empty input passes through;
otherwise the input must equal its own basename, be at most 255 characters
long, and contain none of `invalid_chars` (checked in the source's list
order).  Every rejection is a `ValueError`. -/
def validateFilename (filename : String) : Except PyExc String :=
  if filename = "" then .ok filename
  else
    let clean := posixBasename filename
    if clean ≠ filename then
      .error (.valueError
        ("Invalid filename (path components not allowed): " ++ filename))
    else if 255 < clean.length then
      .error (.valueError
        ("Filename too long (" ++ toString clean.length ++ " chars). Max: 255"))
    else
      match invalidChars.find? (fun c => clean.data.contains c) with
      | some c => .error (.valueError
          ("Invalid character in filename: " ++ squoteStr ++
            String.singleton c ++ squoteStr))
      | none => .ok clean

/-- The list `valid_formats` of `ScreenSnap.__init__`. -/
def validFormats : List String :=
  ["png", "jpg", "jpeg"]

/-- The error message built by `ScreenSnap.__init__` for a rejected format. -/
def invalidFormatMsg (format : String) : String :=
  ("Invalid format " ++ squoteStr ++ format ++ squoteStr ++
    ". Must be one of: ") ++ "png, jpg, jpeg"

/-- Embeds the format-validation block of `ScreenSnap.__init__`: the request
is lowercased and must be one of `png`, `jpg`, `jpeg`; otherwise a
`ValueError` whose message enumerates the accepted set is raised. -/
def validateFormat (format : String) : Except PyExc String :=
  if validFormats.contains (pyLower format) then .ok (pyLower format)
  else .error (.valueError (invalidFormatMsg format))

/-- Embeds `self.config_manager.config['output_dir']` followed by `Path(...)`
as evaluated in `ScreenSnap.__init__` when the `output_dir` argument is
falsy: subscripting a non-object JSON value raises `TypeError`, a missing
key raises `KeyError`, and a non-string value makes `Path` raise
`TypeError`. -/
def configOutputDir (config : Json) : Except PyExc String :=
  match config with
  | .jobj fields =>
    match fields.lookup "output_dir" with
    | some (.jstr s) => .ok s
    | some _ => .error (.typeError "argument should be a str or an os.PathLike object")
    | none => .error (.keyError "output_dir")
  | _ => .error (.typeError "indices must be integers")

/-- Embeds `Path(output_dir or self.config_manager.config['output_dir'])`:
Python truthiness sends both `None` and the empty string to the configured
value. -/
def resolveOutputDir (outputDirArg : Option String) (config : Json) :
    Except PyExc String :=
  match outputDirArg with
  | some s => if s = "" then configOutputDir config else .ok s
  | none => configOutputDir config

/-- A local wall-clock instant at second resolution, the input of
`datetime.now().strftime("%Y%m%d_%H%M%S")`. -/
structure LocalTime where
  year : Nat
  month : Nat
  day : Nat
  hour : Nat
  minute : Nat
  second : Nat
  deriving DecidableEq, Repr

/-- Decimal digit characters. -/
def digitChar : Nat → Char
  | 0 => '0' | 1 => '1' | 2 => '2' | 3 => '3' | 4 => '4'
  | 5 => '5' | 6 => '6' | 7 => '7' | 8 => '8' | _ => '9'

/-- Most-significant-first decimal digits of a positive number; the first
argument is structural fuel (any fuel at least the number itself is enough). -/
def natDigitsAux : Nat → Nat → List Nat
  | 0, _ => []
  | _ + 1, 0 => []
  | fuel + 1, n + 1 => natDigitsAux fuel ((n + 1) / 10) ++ [(n + 1) % 10]

/-- Decimal digits of a natural number (`[0]` for zero). -/
def natDec (n : Nat) : List Nat :=
  if n = 0 then [0] else natDigitsAux n n

/-- Zero-padded decimal rendering, embedding the fixed-width conversions of
`strftime` (`%Y` → width 4, `%m %d %H %M %S` → width 2). -/
def padNum (width n : Nat) : String :=
  ⟨(List.replicate (width - (natDec n).length) 0 ++ natDec n).map digitChar⟩

/-- Embeds `datetime.now().strftime("%Y%m%d_%H%M%S")` applied to a given
instant. -/
def strftimeTimestamp (t : LocalTime) : String :=
  padNum 4 t.year ++ padNum 2 t.month ++ padNum 2 t.day ++ "_" ++
    padNum 2 t.hour ++ padNum 2 t.minute ++ padNum 2 t.second

/-- The auto-generated filename of `ScreenSnap._generate_filename`'s else
branch: `screenshot_<YYYYMMDD_HHMMSS>.<ext>`. -/
def autoName (format : String) (t : LocalTime) : String :=
  "screenshot_" ++ strftimeTimestamp t ++ "." ++ format

/-- Embeds `ScreenSnap._generate_filename` up to the final join with the
output directory: a truthy custom name is validated and the extension
`.<format>` appended unless already present verbatim; a falsy custom name
(`None` or `""`) selects the timestamp-based name. -/
def generateFilename (format : String) (t : LocalTime)
    (customName : Option String) : Except PyExc String :=
  if customName.getD "" = "" then .ok (autoName format t)
  else
    match validateFilename (customName.getD "") with
    | .error e => .error e
    | .ok filename =>
      if pyEndsWith filename ("." ++ format) then .ok filename
      else .ok (filename ++ ("." ++ format))

/-- Pure-path values in the style of `pathlib.PurePosixPath`: an
absolute-path flag plus the list of components (empty and `.` components
are dropped by parsing, as pathlib does). -/
structure PyPath where
  isAbsolute : Bool
  parts : List String
  deriving DecidableEq, Repr

/-- Splits a character list at every `/`, in the manner of Python
`str.split('/')`. -/
def splitSlash : List Char → List (List Char)
  | [] => [[]]
  | c :: cs =>
    if c = '/' then [] :: splitSlash cs
    else
      match splitSlash cs with
      | [] => [[c]]
      | h :: t => (c :: h) :: t

/-- The component list of a path string: split on `/`, dropping empty and
`.` entries as pathlib normalization does. -/
def parseParts (s : String) : List String :=
  ((splitSlash s.data).map (fun cs => (⟨cs⟩ : String))).filter
    (fun c => !(c == "" || c == "."))

/-- Parses a path string into a `PyPath` (absolute iff it starts with `/`). -/
def parsePath (s : String) : PyPath :=
  { isAbsolute := pyStartsWith s "/", parts := parseParts s }

/-- Embeds pathlib's `/` operator `dir / s`: an absolute right operand
replaces the left one, otherwise the parsed components are appended. -/
def pathJoin (d : PyPath) (s : String) : PyPath :=
  if pyStartsWith s "/" then { isAbsolute := true, parts := parseParts s }
  else { isAbsolute := d.isAbsolute, parts := d.parts ++ parseParts s }

/-- Embeds `PurePath.parent`. -/
def PyPath.parent (p : PyPath) : PyPath :=
  { isAbsolute := p.isAbsolute, parts := p.parts.dropLast }

/-- Embeds `PurePath.name`, the final path component. -/
def PyPath.lastComponent (p : PyPath) : String :=
  p.parts.getLastD ""

/-- The state a successfully constructed `ScreenSnap` instance carries:
the resolved output directory, the validated (lowercased) format, and the
configuration dictionary loaded at construction time. -/
structure Snap where
  outputDir : PyPath
  format : String
  config : Json

/-- Embeds `ScreenSnap.__init__` up to the filesystem/PIL side effects:
load the preferences (never fatal by itself), resolve the output directory
(`output_dir or config['output_dir']`, which can raise `KeyError` or
`TypeError` for exotic configuration contents), then validate the format.
The `mkdir` call and the PIL import are environment effects assumed
available, as the spec's claims do. -/
def initSnap (outputDirArg : Option String) (format : String)
    (prefs : FileState) : Except PyExc Snap :=
  match resolveOutputDir outputDirArg (loadConfig prefs) with
  | .error e => .error e
  | .ok dirStr =>
    match validateFormat format with
    | .error e => .error e
    | .ok fmt =>
      .ok { outputDir := parsePath dirStr, format := fmt, config := loadConfig prefs }

/-- Outcome of the OS-level backend work inside a capture call: the
`ImageGrab.grab()` step and the `screenshot.save(...)` step each either
succeed or raise, and a raised exception either is a `ValueError`
(`isValueError = true`) or is of some other non-`ValueError` class. -/
inductive BackendEvent where
  | ok
  | grabError (isValueError : Bool) (msg : String)
  | saveError (isValueError : Bool) (msg : String)
  deriving DecidableEq, Repr

/-- Embeds `ScreenSnap.capture`: the whole body runs inside one `try` whose
handlers are `except ValueError: raise` followed by
`except Exception as e: raise RuntimeError(f"Failed to capture screenshot: {e}")`.
Hence filename-validation `ValueError`s propagate as-is, but so does any
`ValueError` raised by the grab or save steps; only non-`ValueError`
backend exceptions are wrapped into a `RuntimeError`. -/
def capture (snap : Snap) (t : LocalTime) (backend : BackendEvent)
    (filename : Option String) : Except PyExc PyPath :=
  match generateFilename snap.format t filename with
  | .error e => .error e
  | .ok name =>
    match backend with
    | .ok => .ok (pathJoin snap.outputDir name)
    | .grabError true m => .error (.valueError m)
    | .grabError false m => .error (.runtimeError ("Failed to capture screenshot: " ++ m))
    | .saveError true m => .error (.valueError m)
    | .saveError false m => .error (.runtimeError ("Failed to capture screenshot: " ++ m))

/-- Embeds `ScreenSnap.capture_window`.  On a non-Windows platform the call
prints a warning and delegates to `capture` before anything else runs; on
Windows with pywin32 missing, the `ImportError` handler likewise delegates
to `capture`; on Windows with pywin32 present but no matching visible
window, it also delegates.  The genuine window path acquires the window
image (`winBackend`), then resolves the filename and saves; every exception
on that path other than `ImportError` — including `ValueError` from
filename validation, which on this path happens after the grab — is wrapped
into `RuntimeError("Failed to capture window: ...")`. -/
def captureWindow (snap : Snap) (system : String) (pywin32Available : Bool)
    (windowFound : Bool) (winBackend : BackendEvent) (t : LocalTime)
    (fsBackend : BackendEvent) (_windowTitle : String)
    (filename : Option String) : Except PyExc PyPath :=
  if system ≠ "Windows" then capture snap t fsBackend filename
  else if !pywin32Available then capture snap t fsBackend filename
  else if !windowFound then capture snap t fsBackend filename
  else
    match winBackend with
    | .grabError _ m => .error (.runtimeError ("Failed to capture window: " ++ m))
    | wb =>
      match generateFilename snap.format t filename with
      | .error (.valueError m) =>
        .error (.runtimeError ("Failed to capture window: " ++ m))
      | .error e => .error e
      | .ok name =>
        match wb with
        | .saveError _ m => .error (.runtimeError ("Failed to capture window: " ++ m))
        | _ => .ok (pathJoin snap.outputDir name)

/-- Operations an external caller can invoke on a constructed instance, for
the frame-effect claim: the two capture entry points and the explicit
`ScreenSnapConfig.save`. -/
inductive Op where
  | captureOp (t : LocalTime) (b : BackendEvent) (fn : Option String)
  | captureWindowOp (system : String) (pywin32 windowFound : Bool)
      (wb : BackendEvent) (t : LocalTime) (b : BackendEvent)
      (title : String) (fn : Option String)
  | saveOp
  deriving Repr

/-- World state threaded through a sequence of operations: the instance
state (including the in-memory configuration dictionary), the content of
the preferences file, and the image files written so far.  The preferences
file at `config_path` and the screenshot outputs are modelled as distinct
stores, as they are distinct paths whenever `config_path` is not itself a
capture target (true in particular for the default `~/.screensnaprc`). -/
structure World where
  snap : Snap
  prefsFile : Option Json
  imageWrites : List PyPath

/-- One step of the operation semantics: `capture`/`capture_window` write
an image file on success and touch nothing else; `save` serializes the
in-memory configuration to the preferences file (`json.dump` in
`ScreenSnapConfig.save`). -/
def runOp (w : World) : Op → World
  | .captureOp t b fn =>
    match capture w.snap t b fn with
    | .ok p => { w with imageWrites := p :: w.imageWrites }
    | .error _ => w
  | .captureWindowOp sys pw wf wb t b title fn =>
    match captureWindow w.snap sys pw wf wb t b title fn with
    | .ok p => { w with imageWrites := p :: w.imageWrites }
    | .error _ => w
  | .saveOp => { w with prefsFile := some w.snap.config }

/-- Runs a sequence of operations left to right. -/
def runOps (w : World) : List Op → World
  | [] => w
  | op :: ops => runOps (runOp w op) ops

/-! ### Helper lemmas about the string primitives -/

theorem strExt {a b : String} (h : a.data = b.data) : a = b := by
  cases a; cases b; cases h; rfl

theorem strEta (s : String) : (⟨s.data⟩ : String) = s := by
  cases s; rfl

theorem strEqIffData (a b : String) : a = b ↔ a.data = b.data :=
  ⟨congrArg _, strExt⟩

theorem posixBasename_eq_self_iff (f : String) :
    posixBasename f = f ↔ '/' ∉ f.data := by
  rw [strEqIffData]
  show (f.data.reverse.takeWhile (fun c => c != '/')).reverse = f.data ↔ _
  rw [List.reverse_eq_iff, List.takeWhile_eq_self_iff]
  constructor
  · intro h hm
    have := h '/' (List.mem_reverse.mpr hm)
    simp at this
  · intro h a ha
    have : a ≠ '/' := fun hh => h (hh ▸ List.mem_reverse.mp ha)
    simpa using this

theorem listPre_refl_append (l m : List Char) : listPre l (l ++ m) = true := by
  induction l with
  | nil => rfl
  | cons a l ih => simp [listPre, ih]

theorem listPre_length_le {a b : List Char} (h : listPre a b = true) :
    a.length ≤ b.length := by
  induction a generalizing b with
  | nil => simp
  | cons x xs ih =>
    cases b with
    | nil => simp [listPre] at h
    | cons y ys =>
      simp only [listPre, Bool.and_eq_true] at h
      simpa using ih h.2

theorem listPre_append_eq_iff {a b : List Char} (c : List Char)
    (hlen : a.length = b.length) : listPre a (b ++ c) = true ↔ a = b := by
  induction a generalizing b with
  | nil =>
    cases b with
    | nil => simp [listPre]
    | cons y ys => simp at hlen
  | cons x xs ih =>
    cases b with
    | nil => simp at hlen
    | cons y ys =>
      have hlen' : xs.length = ys.length := by simpa using hlen
      show (x == y && listPre xs (ys ++ c)) = true ↔ x :: xs = y :: ys
      rw [Bool.and_eq_true, beq_iff_eq, ih hlen', List.cons.injEq]

theorem pyEndsWith_append (s t : String) : pyEndsWith (s ++ t) t = true := by
  unfold pyEndsWith
  rw [String.data_append, List.reverse_append]
  exact listPre_refl_append _ _

theorem pyEndsWith_length_le {s t : String} (h : pyEndsWith s t = true) :
    t.length ≤ s.length := by
  have h2 := listPre_length_le h
  rw [List.length_reverse, List.length_reverse] at h2
  exact h2

theorem pyEndsWith_append_eq_iff {u v : String} (s : String)
    (hlen : u.length = v.length) : pyEndsWith (s ++ u) v = true ↔ u = v := by
  unfold pyEndsWith
  rw [String.data_append, List.reverse_append,
    listPre_append_eq_iff _ (by rw [List.length_reverse, List.length_reverse]; exact hlen.symm)]
  constructor
  · intro h
    exact (strExt (List.reverse_inj.mp h)).symm
  · intro h
    rw [h]

theorem pyStartsWith_slash_eq_false {s : String} (h : '/' ∉ s.data) :
    pyStartsWith s "/" = false := by
  unfold pyStartsWith
  rcases hd : s.data with _ | ⟨c, cs⟩
  · rfl
  · have hc : c ≠ '/' := by
      intro hcc
      exact h (hd ▸ hcc ▸ List.mem_cons_self c cs)
    show listPre ['/'] (c :: cs) = false
    simp [listPre, Ne.symm hc]

theorem splitSlash_no_slash {l : List Char} (h : '/' ∉ l) :
    splitSlash l = [l] := by
  induction l with
  | nil => rfl
  | cons c cs ih =>
    have hc : c ≠ '/' := fun hcc => h (hcc ▸ List.mem_cons_self c cs)
    have hmem : '/' ∉ cs := fun hm => h (List.mem_cons_of_mem _ hm)
    simp [splitSlash, hc, ih hmem]

theorem parseParts_single {s : String} (h : '/' ∉ s.data) (h0 : s ≠ "")
    (h1 : s ≠ ".") : parseParts s = [s] := by
  unfold parseParts
  rw [splitSlash_no_slash h]
  simp [strEta, h0, h1]

theorem pathJoin_single (d : PyPath) {s : String} (h : '/' ∉ s.data)
    (h0 : s ≠ "") (h1 : s ≠ ".") :
    pathJoin d s = { isAbsolute := d.isAbsolute, parts := d.parts ++ [s] } := by
  unfold pathJoin
  simp [pyStartsWith_slash_eq_false h, parseParts_single h h0 h1]

/-! ### Characterization of filename validation -/

theorem validateFilename_empty : validateFilename "" = .ok "" := rfl

theorem validateFilename_ok {f g : String} (hne : f ≠ "")
    (h : validateFilename f = .ok g) :
    g = f ∧ ∀ c ∈ invalidChars, c ∉ f.data := by
  unfold validateFilename at h
  rw [if_neg hne] at h
  by_cases h1 : posixBasename f ≠ f
  · rw [if_pos h1] at h; simp at h
  · rw [if_neg h1] at h
    have hbn : posixBasename f = f := not_not.mp h1
    rw [hbn] at h
    by_cases h2 : 255 < f.length
    · rw [if_pos h2] at h; simp at h
    · rw [if_neg h2] at h
      rcases hf : invalidChars.find? (fun c => f.data.contains c) with _ | c
      · rw [hf] at h
        injection h with h'
        refine ⟨h'.symm, ?_⟩
        intro c hc hmem
        have hnc := (List.find?_eq_none.mp hf) c hc
        simp at hnc
        exact hnc hmem
      · rw [hf] at h; simp at h

theorem validateFilename_error_valueError (f : String) (e : PyExc)
    (h : validateFilename f = .error e) : ∃ m, e = .valueError m := by
  unfold validateFilename at h
  by_cases h0 : f = ""
  · rw [if_pos h0] at h; simp at h
  · rw [if_neg h0] at h
    by_cases h1 : posixBasename f ≠ f
    · rw [if_pos h1] at h
      injection h with h'
      exact ⟨_, h'.symm⟩
    · rw [if_neg h1] at h
      by_cases h2 : 255 < (posixBasename f).length
      · rw [if_pos h2] at h
        injection h with h'
        exact ⟨_, h'.symm⟩
      · rw [if_neg h2] at h
        rcases hf : invalidChars.find? (fun c => (posixBasename f).data.contains c)
          with _ | c
        · rw [hf] at h; simp at h
        · rw [hf] at h
          injection h with h'
          exact ⟨_, h'.symm⟩

theorem validateFilename_error_iff (f : String) (hne : f ≠ "") :
    (∃ e, validateFilename f = .error e) ↔
      ('/' ∈ f.data ∨ 255 < f.length ∨ ∃ c ∈ invalidChars, c ∈ f.data) := by
  unfold validateFilename
  rw [if_neg hne]
  by_cases h1 : posixBasename f = f
  · rw [if_neg (by simp [h1]), h1]
    have hns : '/' ∉ f.data := (posixBasename_eq_self_iff f).mp h1
    by_cases h2 : 255 < f.length
    · rw [if_pos h2]
      simp [h2]
    · rw [if_neg h2]
      rcases hf : invalidChars.find? (fun c => f.data.contains c) with _ | c
      · constructor
        · rintro ⟨e, he⟩
          simp at he
        · intro h
          rcases h with h | h | ⟨c, hc, hm⟩
          · exact absurd h hns
          · exact absurd h h2
          · have hnc := (List.find?_eq_none.mp hf) c hc
            simp at hnc
            exact absurd hm hnc
      · have hc1 : c ∈ invalidChars := List.mem_of_find?_eq_some hf
        have hc2 : c ∈ f.data := by
          have := List.find?_some hf
          simpa using this
        simp only [Except.error.injEq, exists_eq]
        constructor
        · intro _
          exact Or.inr (Or.inr ⟨c, hc1, hc2⟩)
        · intro _
          exact ⟨_, rfl⟩
  · rw [if_pos h1]
    have hsl : '/' ∈ f.data := by
      by_contra hc
      exact h1 ((posixBasename_eq_self_iff f).mpr hc)
    simp [hsl]

theorem capture_custom_error_iff (snap : Snap) (t : LocalTime) {f : String}
    (hne : f ≠ "") (e : PyExc) :
    capture snap t .ok (some f) = .error e ↔ validateFilename f = .error e := by
  unfold capture generateFilename
  simp only [Option.getD_some]
  rw [if_neg hne]
  rcases hv : validateFilename f with e' | g
  · simp
  · by_cases hend : pyEndsWith g ("." ++ snap.format) <;> simp [hend]

/-! ### Claim C1 -/

/-- C1 counterexample: the claim states that a filename containing a leading
`..` segment makes `capture` fail with InvalidFilename, but the bare
filename `..` (a leading — and only — `..` segment) is accepted by
`_validate_filename` (its `os.path.basename` equals itself and it contains
no reserved character), and `capture` succeeds, writing `...png` inside the
output directory. -/
theorem c1_counterexample_dotdot_accepted :
    capture { outputDir := { isAbsolute := false, parts := [] },
              format := "png", config := defaultConfig }
      { year := 2026, month := 1, day := 18, hour := 12, minute := 0, second := 0 }
      .ok (some "..")
      = .ok { isAbsolute := false, parts := ["...png"] } := rfl

/-- C1 (amended): for every non-empty filename argument, `capture` (with a
functioning backend) fails if and only if the filename contains `/` or `\`,
or its length exceeds 255 characters, or it contains one of the reserved
characters `< > : " | ? *`; every such failure is a `ValueError`
(InvalidFilename).  A `..` segment not adjacent to a separator — in
particular the bare filename `..` — is accepted, contrary to the original
claim's `..` clause. -/
theorem c1_invalid_filename_iff (snap : Snap) (t : LocalTime)
    (f : String) (hne : f ≠ "") :
    ((∃ e, capture snap t .ok (some f) = .error e) ↔
      ('/' ∈ f.data ∨ '\\' ∈ f.data ∨ 255 < f.length ∨
        ∃ c ∈ reservedChars, c ∈ f.data))
    ∧ ∀ e, capture snap t .ok (some f) = .error e → ∃ m, e = .valueError m := by
  constructor
  · have hcap : (∃ e, capture snap t .ok (some f) = .error e) ↔
        (∃ e, validateFilename f = .error e) :=
      exists_congr (fun e => capture_custom_error_iff snap t hne e)
    rw [hcap, validateFilename_error_iff f hne]
    constructor
    · rintro (h | h | ⟨c, hc, hm⟩)
      · exact Or.inl h
      · exact Or.inr (Or.inr (Or.inl h))
      · simp only [invalidChars, List.mem_cons, List.not_mem_nil, or_false] at hc
        rcases hc with rfl | rfl | rfl | rfl | rfl | rfl | rfl | rfl | rfl
        · exact Or.inr (Or.inr (Or.inr ⟨_, by decide, hm⟩))
        · exact Or.inr (Or.inr (Or.inr ⟨_, by decide, hm⟩))
        · exact Or.inr (Or.inr (Or.inr ⟨_, by decide, hm⟩))
        · exact Or.inr (Or.inr (Or.inr ⟨_, by decide, hm⟩))
        · exact Or.inl hm
        · exact Or.inr (Or.inl hm)
        · exact Or.inr (Or.inr (Or.inr ⟨_, by decide, hm⟩))
        · exact Or.inr (Or.inr (Or.inr ⟨_, by decide, hm⟩))
        · exact Or.inr (Or.inr (Or.inr ⟨_, by decide, hm⟩))
    · rintro (h | h | h | ⟨c, hc, hm⟩)
      · exact Or.inl h
      · exact Or.inr (Or.inr ⟨'\\', by decide, h⟩)
      · exact Or.inr (Or.inl h)
      · refine Or.inr (Or.inr ⟨c, ?_, hm⟩)
        simp only [reservedChars, List.mem_cons, List.not_mem_nil, or_false] at hc
        rcases hc with rfl | rfl | rfl | rfl | rfl | rfl | rfl <;> decide
  · intro e he
    exact validateFilename_error_valueError f e
      ((capture_custom_error_iff snap t hne e).mp he)

/-- Witness for C1 (amended), at the concrete rejected filename
`shot:1.png` (reserved character `:`) and the concrete accepted setting of
the counterexample. -/
theorem c1_invalid_filename_iff_witness :
    ((∃ e, capture { outputDir := { isAbsolute := false, parts := [] },
                     format := "png", config := defaultConfig }
        { year := 2026, month := 1, day := 18, hour := 12, minute := 0, second := 0 }
        .ok (some "shot:1.png") = .error e) ↔
      ('/' ∈ "shot:1.png".data ∨ '\\' ∈ "shot:1.png".data ∨
        255 < "shot:1.png".length ∨
        ∃ c ∈ reservedChars, c ∈ "shot:1.png".data))
    ∧ ∀ e, capture { outputDir := { isAbsolute := false, parts := [] },
                     format := "png", config := defaultConfig }
        { year := 2026, month := 1, day := 18, hour := 12, minute := 0, second := 0 }
        .ok (some "shot:1.png") = .error e → ∃ m, e = .valueError m :=
  c1_invalid_filename_iff _ _ "shot:1.png" (by decide)

/-! ### Claim C3 -/

/-- C3: for every filename that passes sanitization, the extension for the
configured format is appended exactly when the sanitized name lacks it: the
resolved name ends in `.<format>`, equals the sanitized name when that name
already carries the extension (no double extension), and equals the
sanitized name plus `.<format>` otherwise; `capture` then writes exactly
that name inside the output directory. -/
theorem c3_extension_appended_iff_missing (snap : Snap) (t : LocalTime)
    (f g : String) (hne : f ≠ "") (hv : validateFilename f = .ok g) :
    ∃ r, generateFilename snap.format t (some f) = .ok r ∧
      capture snap t .ok (some f) = .ok (pathJoin snap.outputDir r) ∧
      pyEndsWith r ("." ++ snap.format) = true ∧
      (pyEndsWith g ("." ++ snap.format) = true → r = g) ∧
      (pyEndsWith g ("." ++ snap.format) = false → r = g ++ ("." ++ snap.format)) := by
  have hgen : generateFilename snap.format t (some f) =
      if pyEndsWith g ("." ++ snap.format) then .ok g
      else .ok (g ++ ("." ++ snap.format)) := by
    unfold generateFilename
    simp only [Option.getD_some]
    rw [if_neg hne, hv]
  by_cases hend : pyEndsWith g ("." ++ snap.format)
  · refine ⟨g, ?_, ?_, hend, fun _ => rfl, fun hfalse => by simp [hfalse] at hend⟩
    · rw [hgen, if_pos hend]
    · unfold capture
      rw [hgen, if_pos hend]
  · refine ⟨g ++ ("." ++ snap.format), ?_, ?_, pyEndsWith_append _ _,
      fun htrue => absurd htrue hend, fun _ => rfl⟩
    · rw [hgen, if_neg hend]
    · unfold capture
      rw [hgen, if_neg hend]

/-- Witness for C3: with format `png`, `capture("shot.png")` resolves to
exactly `shot.png` (no double extension); with format `jpg`,
`capture("shot")` resolves to `shot.jpg`. -/
theorem c3_extension_appended_iff_missing_witness :
    generateFilename "png"
      { year := 2026, month := 1, day := 18, hour := 12, minute := 0, second := 0 }
      (some "shot.png") = .ok "shot.png" ∧
    generateFilename "jpg"
      { year := 2026, month := 1, day := 18, hour := 12, minute := 0, second := 0 }
      (some "shot") = .ok "shot.jpg" := by
  constructor
  · obtain ⟨r, hr, _, _, h4, _⟩ :=
      c3_extension_appended_iff_missing
        { outputDir := { isAbsolute := false, parts := [] }, format := "png",
          config := defaultConfig }
        { year := 2026, month := 1, day := 18, hour := 12, minute := 0, second := 0 }
        "shot.png" "shot.png" (by decide) rfl
    rw [h4 rfl] at hr
    exact hr
  · obtain ⟨r, hr, _, _, _, h5⟩ :=
      c3_extension_appended_iff_missing
        { outputDir := { isAbsolute := false, parts := [] }, format := "jpg",
          config := defaultConfig }
        { year := 2026, month := 1, day := 18, hour := 12, minute := 0, second := 0 }
        "shot" "shot" (by decide) rfl
    rw [h5 rfl] at hr
    exact hr

/-! ### Claim C10 -/

/-- C10: the already-has-extension check of `_generate_filename` compares
the filename's suffix verbatim against the lowercase `.<format>` string, so
for every accepted filename whose extension has the same length as but is
not identical to the configured format (in particular, differs only in
letter case, such as `shot.PNG` against `png`), a second lowercase
extension is appended. -/
theorem c10_case_differing_extension_duplicated (t : LocalTime)
    (fmt stem ext : String) (hne : stem ++ ("." ++ ext) ≠ "")
    (hv : validateFilename (stem ++ ("." ++ ext)) = .ok (stem ++ ("." ++ ext)))
    (hlen : ext.length = fmt.length) (hdiff : ext ≠ fmt) :
    generateFilename fmt t (some (stem ++ ("." ++ ext)))
      = .ok (stem ++ ("." ++ ext) ++ ("." ++ fmt)) := by
  have hdot : ("." ++ ext : String) ≠ ("." ++ fmt : String) := by
    intro h
    apply hdiff
    have hd := congrArg String.data h
    rw [String.data_append, String.data_append] at hd
    exact strExt (List.append_cancel_left hd)
  have hdlen : ("." ++ ext : String).length = ("." ++ fmt : String).length := by
    rw [String.length_append, String.length_append, hlen]
  have hnotend : pyEndsWith (stem ++ ("." ++ ext)) ("." ++ fmt) = false :=
    Bool.eq_false_iff.mpr
      (fun h => hdot ((pyEndsWith_append_eq_iff stem hdlen).mp h))
  unfold generateFilename
  simp only [Option.getD_some]
  rw [if_neg hne, hv]
  simp [hnotend]

/-- Witness for C10: `capture("shot.PNG")` with format `png` resolves to
`shot.PNG.png`. -/
theorem c10_case_differing_extension_duplicated_witness :
    generateFilename "png"
      { year := 2026, month := 1, day := 18, hour := 12, minute := 0, second := 0 }
      (some "shot.PNG") = .ok "shot.PNG.png" :=
  c10_case_differing_extension_duplicated
    { year := 2026, month := 1, day := 18, hour := 12, minute := 0, second := 0 }
    "png" "shot" "PNG" (by decide) rfl (by decide) (by decide)

/-! ### Claim C4 -/

theorem pyStartsWith_append (s t : String) : pyStartsWith (s ++ t) s = true := by
  unfold pyStartsWith
  rw [String.data_append]
  exact listPre_refl_append _ _

/-- C4: `capture("")` with a functioning backend always succeeds and
resolves to the auto-generated name joined onto the output directory; the
auto-generated name is exactly `screenshot_<YYYYMMDD_HHMMSS>.<ext>` — a
pure function of the wall-clock second and the format, so `capture("")`
agrees with `capture()` and two calls seeing the same second produce the
same name; the name starts with `screenshot_` and ends with the configured
extension. -/
theorem c4_empty_filename_autoname (snap : Snap) (t : LocalTime) :
    capture snap t .ok (some "") =
      .ok (pathJoin snap.outputDir (autoName snap.format t)) ∧
    capture snap t .ok (some "") = capture snap t .ok none ∧
    autoName snap.format t =
      "screenshot_" ++ strftimeTimestamp t ++ "." ++ snap.format ∧
    pyStartsWith (autoName snap.format t) "screenshot_" = true ∧
    pyEndsWith (autoName snap.format t) ("." ++ snap.format) = true ∧
    ∀ t', strftimeTimestamp t' = strftimeTimestamp t →
      autoName snap.format t' = autoName snap.format t := by
  refine ⟨rfl, rfl, rfl, ?_, ?_, ?_⟩
  · show pyStartsWith ("screenshot_" ++ strftimeTimestamp t ++ "." ++ snap.format)
      "screenshot_" = true
    rw [String.append_assoc, String.append_assoc]
    exact pyStartsWith_append _ _
  · show pyEndsWith ("screenshot_" ++ strftimeTimestamp t ++ "." ++ snap.format)
      ("." ++ snap.format) = true
    rw [String.append_assoc]
    exact pyEndsWith_append _ _
  · intro t' h
    unfold autoName
    rw [h]

/-- Witness for C4, at a concrete instance and instant; the auto-generated
name there evaluates to `screenshot_20260118_123456.png`. -/
theorem c4_empty_filename_autoname_witness :
    (capture { outputDir := { isAbsolute := false, parts := [] },
               format := "png", config := defaultConfig }
      { year := 2026, month := 1, day := 18, hour := 12, minute := 34, second := 56 }
      .ok (some "") =
      .ok (pathJoin { isAbsolute := false, parts := [] }
        (autoName "png"
          { year := 2026, month := 1, day := 18, hour := 12, minute := 34, second := 56 })) ∧
    capture { outputDir := { isAbsolute := false, parts := [] },
              format := "png", config := defaultConfig }
      { year := 2026, month := 1, day := 18, hour := 12, minute := 34, second := 56 }
      .ok (some "") =
      capture { outputDir := { isAbsolute := false, parts := [] },
                format := "png", config := defaultConfig }
        { year := 2026, month := 1, day := 18, hour := 12, minute := 34, second := 56 }
        .ok none ∧
    autoName "png"
      { year := 2026, month := 1, day := 18, hour := 12, minute := 34, second := 56 } =
      "screenshot_" ++ strftimeTimestamp
        { year := 2026, month := 1, day := 18, hour := 12, minute := 34, second := 56 } ++
        "." ++ "png" ∧
    pyStartsWith
      (autoName "png"
        { year := 2026, month := 1, day := 18, hour := 12, minute := 34, second := 56 })
      "screenshot_" = true ∧
    pyEndsWith
      (autoName "png"
        { year := 2026, month := 1, day := 18, hour := 12, minute := 34, second := 56 })
      ("." ++ "png") = true ∧
    ∀ t', strftimeTimestamp t' = strftimeTimestamp
        { year := 2026, month := 1, day := 18, hour := 12, minute := 34, second := 56 } →
      autoName "png" t' = autoName "png"
        { year := 2026, month := 1, day := 18, hour := 12, minute := 34, second := 56 }) ∧
    autoName "png"
      { year := 2026, month := 1, day := 18, hour := 12, minute := 34, second := 56 } =
      "screenshot_20260118_123456.png" :=
  ⟨c4_empty_filename_autoname
    { outputDir := { isAbsolute := false, parts := [] }, format := "png",
      config := defaultConfig }
    { year := 2026, month := 1, day := 18, hour := 12, minute := 34, second := 56 },
   rfl⟩

/-! ### Claim C2 -/

theorem digitChar_ne_slash (d : Nat) : digitChar d ≠ '/' := by
  unfold digitChar
  split <;> decide

theorem digitChar_ne_backslash (d : Nat) : digitChar d ≠ '\\' := by
  unfold digitChar
  split <;> decide

theorem mem_padNum {c : Char} {w n : Nat} (h : c ∈ (padNum w n).data) :
    ∃ d, digitChar d = c := by
  obtain ⟨d, _, hd⟩ := List.mem_map.mp h
  exact ⟨d, hd⟩

theorem padNum_no_slash (w n : Nat) : '/' ∉ (padNum w n).data := by
  intro h
  obtain ⟨d, hd⟩ := mem_padNum h
  exact digitChar_ne_slash d hd

theorem padNum_no_backslash (w n : Nat) : '\\' ∉ (padNum w n).data := by
  intro h
  obtain ⟨d, hd⟩ := mem_padNum h
  exact digitChar_ne_backslash d hd

theorem strftimeTimestamp_no_slash (t : LocalTime) :
    '/' ∉ (strftimeTimestamp t).data := by
  intro hm
  unfold strftimeTimestamp at hm
  simp only [String.data_append, List.mem_append] at hm
  rcases hm with (((((h | h) | h) | h) | h) | h) | h
  all_goals first
    | exact padNum_no_slash _ _ h
    | exact absurd h (by decide)

theorem strftimeTimestamp_no_backslash (t : LocalTime) :
    '\\' ∉ (strftimeTimestamp t).data := by
  intro hm
  unfold strftimeTimestamp at hm
  simp only [String.data_append, List.mem_append] at hm
  rcases hm with (((((h | h) | h) | h) | h) | h) | h
  all_goals first
    | exact padNum_no_backslash _ _ h
    | exact absurd h (by decide)

theorem autoName_props (format : String) (t : LocalTime)
    (hf1 : '/' ∉ format.data) (hf2 : '\\' ∉ format.data) :
    '/' ∉ (autoName format t).data ∧ '\\' ∉ (autoName format t).data ∧
    autoName format t ≠ "" ∧ autoName format t ≠ "." := by
  have hdata : (autoName format t).data =
      (("screenshot_".data ++ (strftimeTimestamp t).data) ++ ".".data) ++
        format.data := by
    unfold autoName
    rw [String.data_append, String.data_append, String.data_append]
  refine ⟨?_, ?_, ?_, ?_⟩
  · intro hm
    rw [hdata] at hm
    simp only [List.mem_append] at hm
    rcases hm with ((h | h) | h) | h
    · exact absurd h (by decide)
    · exact strftimeTimestamp_no_slash t h
    · exact absurd h (by decide)
    · exact hf1 h
  · intro hm
    rw [hdata] at hm
    simp only [List.mem_append] at hm
    rcases hm with ((h | h) | h) | h
    · exact absurd h (by decide)
    · exact strftimeTimestamp_no_backslash t h
    · exact absurd h (by decide)
    · exact hf2 h
  · intro hm
    have := congrArg List.length ((strEqIffData _ _).mp hm)
    rw [hdata] at this
    simp only [List.length_append] at this
    simp at this
  · intro hm
    have := congrArg List.length ((strEqIffData _ _).mp hm)
    rw [hdata] at this
    simp only [List.length_append] at this
    simp at this
    omega

theorem validateFormat_ok_cases {s f : String} (h : validateFormat s = .ok f) :
    f = "png" ∨ f = "jpg" ∨ f = "jpeg" := by
  unfold validateFormat at h
  by_cases hc : validFormats.contains (pyLower s)
  · rw [if_pos hc] at h
    injection h with h'
    have hmem : pyLower s ∈ validFormats := by simpa using hc
    rw [← h']
    simpa [validFormats] using hmem
  · rw [if_neg hc] at h
    simp at h

theorem generateFilename_ok_props {format : String} {t : LocalTime}
    {c : Option String} {name : String}
    (hfmt : format = "png" ∨ format = "jpg" ∨ format = "jpeg")
    (h : generateFilename format t c = .ok name) :
    '/' ∉ name.data ∧ '\\' ∉ name.data ∧ name ≠ "" ∧ name ≠ "." := by
  have hf1 : '/' ∉ format.data := by
    rcases hfmt with rfl | rfl | rfl <;> decide
  have hf2 : '\\' ∉ format.data := by
    rcases hfmt with rfl | rfl | rfl <;> decide
  have hflen : 1 ≤ format.length := by
    rcases hfmt with rfl | rfl | rfl <;> decide
  unfold generateFilename at h
  by_cases hc : c.getD "" = ""
  · rw [if_pos hc] at h
    injection h with h'
    rw [← h']
    exact autoName_props format t hf1 hf2
  · rw [if_neg hc] at h
    rcases hv : validateFilename (c.getD "") with e | g
    · rw [hv] at h
      simp at h
    · rw [hv] at h
      have h2 : (if pyEndsWith g ("." ++ format) then (Except.ok g : Except PyExc String)
          else .ok (g ++ ("." ++ format))) = .ok name := h
      obtain ⟨hg, hchars⟩ := validateFilename_ok hc hv
      have hgs : '/' ∉ g.data := by
        rw [hg]
        exact hchars '/' (by decide)
      have hgb : '\\' ∉ g.data := by
        rw [hg]
        exact hchars '\\' (by decide)
      by_cases hend : pyEndsWith g ("." ++ format)
      · rw [if_pos hend] at h2
        injection h2 with h'
        rw [← h']
        have hlen := pyEndsWith_length_le hend
        rw [String.length_append] at hlen
        rw [show (("." : String)).length = 1 from rfl] at hlen
        refine ⟨hgs, hgb, ?_, ?_⟩
        · intro hg0
          rw [hg0, show (("" : String)).length = 0 from rfl] at hlen
          omega
        · intro hg0
          rw [hg0, show (("." : String)).length = 1 from rfl] at hlen
          omega
      · rw [if_neg hend] at h2
        injection h2 with h'
        rw [← h']
        refine ⟨?_, ?_, ?_, ?_⟩
        · intro hm
          rw [String.data_append] at hm
          rcases List.mem_append.mp hm with hm | hm
          · exact hgs hm
          · rw [String.data_append] at hm
            rcases List.mem_append.mp hm with hm | hm
            · exact absurd hm (by decide)
            · exact hf1 hm
        · intro hm
          rw [String.data_append] at hm
          rcases List.mem_append.mp hm with hm | hm
          · exact hgb hm
          · rw [String.data_append] at hm
            rcases List.mem_append.mp hm with hm | hm
            · exact absurd hm (by decide)
            · exact hf2 hm
        · intro hm
          have hl := congrArg String.length hm
          rw [String.length_append, String.length_append,
            show (("." : String)).length = 1 from rfl,
            show (("" : String)).length = 0 from rfl] at hl
          omega
        · intro hm
          have hl := congrArg String.length hm
          rw [String.length_append, String.length_append,
            show (("." : String)).length = 1 from rfl] at hl
          omega

/-- C2: for every successfully constructed instance and every capture call
that returns a path, the returned path's final component is a sanitized
basename containing no path separator (`/` or `\`), and the path is
exactly that single component joined onto the configured output directory,
whose value is also the returned path's parent — the output directory
cannot be escaped, for caller-supplied and auto-generated names alike. -/
theorem c2_output_directory_not_escaped
    (a : Option String) (fmtArg : String) (prefs : FileState) (snap : Snap)
    (t : LocalTime) (b : BackendEvent) (fn : Option String) (p : PyPath)
    (hinit : initSnap a fmtArg prefs = .ok snap)
    (hcap : capture snap t b fn = .ok p) :
    p.parent = snap.outputDir ∧
    p = pathJoin snap.outputDir p.lastComponent ∧
    '/' ∉ p.lastComponent.data ∧ '\\' ∉ p.lastComponent.data ∧
    p.lastComponent ≠ "" := by
  have hfmt : snap.format = "png" ∨ snap.format = "jpg" ∨ snap.format = "jpeg" := by
    unfold initSnap at hinit
    rcases hro : resolveOutputDir a (loadConfig prefs) with e | d
    · rw [hro] at hinit
      simp at hinit
    · rw [hro] at hinit
      rcases hvf : validateFormat fmtArg with e | f
      · rw [hvf] at hinit
        simp at hinit
      · rw [hvf] at hinit
        injection hinit with h'
        rw [← h']
        exact validateFormat_ok_cases hvf
  unfold capture at hcap
  rcases hg : generateFilename snap.format t fn with e | name
  · rw [hg] at hcap
    simp at hcap
  · rw [hg] at hcap
    obtain ⟨h1, h2, h3, h4⟩ := generateFilename_ok_props hfmt hg
    rcases b with _ | ⟨iv, m⟩ | ⟨iv, m⟩
    · injection hcap with h'
      have hjoin := pathJoin_single snap.outputDir h1 h3 h4
      rw [← h', hjoin]
      refine ⟨?_, ?_, ?_, ?_, ?_⟩
      · unfold PyPath.parent
        simp
      · unfold PyPath.lastComponent
        simp [hjoin]
      · unfold PyPath.lastComponent
        simpa using h1
      · unfold PyPath.lastComponent
        simpa using h2
      · unfold PyPath.lastComponent
        simpa using h3
    · cases iv <;> simp at hcap
    · cases iv <;> simp at hcap

/-- Witness for C2, with output directory `shots`, format `png`, an absent
preferences file and the caller-supplied filename `pic`: the returned path
is `shots/pic.png`, whose parent is the output directory. -/
theorem c2_output_directory_not_escaped_witness :
    PyPath.parent { isAbsolute := false, parts := ["shots", "pic.png"] } =
      ({ isAbsolute := false, parts := ["shots"] } : PyPath) ∧
    ({ isAbsolute := false, parts := ["shots", "pic.png"] } : PyPath) =
      pathJoin { isAbsolute := false, parts := ["shots"] }
        (PyPath.lastComponent { isAbsolute := false, parts := ["shots", "pic.png"] }) ∧
    '/' ∉ (PyPath.lastComponent
      { isAbsolute := false, parts := ["shots", "pic.png"] }).data ∧
    '\\' ∉ (PyPath.lastComponent
      { isAbsolute := false, parts := ["shots", "pic.png"] }).data ∧
    PyPath.lastComponent { isAbsolute := false, parts := ["shots", "pic.png"] } ≠ "" :=
  c2_output_directory_not_escaped (some "shots") "png" .absent
    { outputDir := { isAbsolute := false, parts := ["shots"] }, format := "png",
      config := defaultConfig }
    { year := 2026, month := 1, day := 18, hour := 12, minute := 34, second := 56 }
    .ok (some "pic") { isAbsolute := false, parts := ["shots", "pic.png"] }
    rfl rfl

/-! ### Claim C5 -/

/-- C5: on a platform lacking window-enumeration support (any `platform.system()`
other than `Windows`), or when the optional pywin32 dependency is missing,
`capture_window(title, filename)` returns exactly the result of
`capture(filename)`, for every window title and every filename — the
fallback is a warning-level notice, not an error. -/
theorem c5_capture_window_fallback_equivalence (snap : Snap) (system : String)
    (pywin32Available windowFound : Bool) (wb : BackendEvent) (t : LocalTime)
    (b : BackendEvent) (title : String) (fn : Option String)
    (h : system ≠ "Windows" ∨ pywin32Available = false) :
    captureWindow snap system pywin32Available windowFound wb t b title fn =
      capture snap t b fn := by
  unfold captureWindow
  rcases h with h | h
  · rw [if_pos h]
  · by_cases hs : system ≠ "Windows"
    · rw [if_pos hs]
    · rw [if_neg hs, h]
      simp

/-- Witness for C5: on `Linux`, with pywin32 present and a visible window
matching `Chrome`, `capture_window` still equals `capture` on the same
filename. -/
theorem c5_capture_window_fallback_equivalence_witness :
    captureWindow
      { outputDir := { isAbsolute := false, parts := [] }, format := "png",
        config := defaultConfig }
      "Linux" true true .ok
      { year := 2026, month := 1, day := 18, hour := 12, minute := 0, second := 0 }
      .ok "Chrome" (some "pic") =
    capture
      { outputDir := { isAbsolute := false, parts := [] }, format := "png",
        config := defaultConfig }
      { year := 2026, month := 1, day := 18, hour := 12, minute := 0, second := 0 }
      .ok (some "pic") :=
  c5_capture_window_fallback_equivalence _ "Linux" true true .ok _ .ok "Chrome"
    (some "pic") (Or.inl (by decide))

/-! ### Claim C6 -/

/-- C6: given that the output directory resolves (the preferences lookup
succeeds), construction fails if and only if the requested format string is
not case-insensitively one of `png`, `jpg`, `jpeg`; the failure is the
`ValueError` carrying the message that enumerates the accepted set, and
this validation happens only in `initSnap` — `capture` receives the
already-validated format and never re-validates it. -/
theorem c6_invalid_format_iff (a : Option String) (fmtArg : String)
    (prefs : FileState) (d : String)
    (hdir : resolveOutputDir a (loadConfig prefs) = .ok d) :
    ((∃ e, initSnap a fmtArg prefs = .error e) ↔
      validFormats.contains (pyLower fmtArg) = false) ∧
    ∀ e, initSnap a fmtArg prefs = .error e →
      e = .valueError (invalidFormatMsg fmtArg) ∧
      pyEndsWith (invalidFormatMsg fmtArg) "png, jpg, jpeg" = true := by
  have hmsg : pyEndsWith (invalidFormatMsg fmtArg) "png, jpg, jpeg" = true :=
    pyEndsWith_append _ _
  have hval : initSnap a fmtArg prefs =
      (match validateFormat fmtArg with
        | .error e => .error e
        | .ok fmt => .ok { outputDir := parsePath d, format := fmt,
                           config := loadConfig prefs }) := by
    unfold initSnap
    rw [hdir]
  by_cases hc : validFormats.contains (pyLower fmtArg)
  · have hvf : validateFormat fmtArg = .ok (pyLower fmtArg) := by
      unfold validateFormat
      rw [if_pos hc]
    have hinit : initSnap a fmtArg prefs =
        .ok { outputDir := parsePath d, format := pyLower fmtArg,
              config := loadConfig prefs } := by
      rw [hval, hvf]
    constructor
    · constructor
      · rintro ⟨e, he⟩
        rw [hinit] at he
        simp at he
      · intro hfalse
        rw [hc] at hfalse
        cases hfalse
    · intro e he
      rw [hinit] at he
      simp at he
  · have hvf : validateFormat fmtArg = .error (.valueError (invalidFormatMsg fmtArg)) := by
      unfold validateFormat
      rw [if_neg hc]
    have hinit : initSnap a fmtArg prefs =
        .error (.valueError (invalidFormatMsg fmtArg)) := by
      rw [hval, hvf]
    constructor
    · constructor
      · intro _
        exact Bool.eq_false_iff.mpr hc
      · intro _
        exact ⟨_, hinit⟩
    · intro e he
      rw [hinit] at he
      injection he with h'
      exact ⟨h'.symm, hmsg⟩

/-- Witness for C6: with an absent preferences file (defaults, output
directory `.`) the format `bmp` is rejected at construction with the
enumerating `ValueError`. -/
theorem c6_invalid_format_iff_witness :
    ((∃ e, initSnap none "bmp" .absent = .error e) ↔
      validFormats.contains (pyLower "bmp") = false) ∧
    ∀ e, initSnap none "bmp" .absent = .error e →
      e = .valueError (invalidFormatMsg "bmp") ∧
      pyEndsWith (invalidFormatMsg "bmp") "png, jpg, jpeg" = true :=
  c6_invalid_format_iff none "bmp" .absent "." rfl

/-! ### Claim C7 -/

/-- C7 (code bug): the claim — and the source docstring of `capture`
(`RuntimeError: If screenshot capture fails`) together with the comment
`Re-raise validation errors as-is` — require every backend/encode failure
to surface as a wrapped `RuntimeError` (CaptureFailure), even when the
underlying exception class is `ValueError`.  But the `try` block of
`capture` also covers the grab and save steps, and its
`except ValueError: raise` handler re-raises a backend `ValueError`
unwrapped (first conjunct), while only non-`ValueError` backend failures
are wrapped (second and third conjuncts): `capture("shot.png")` whose save
step raises `ValueError` escapes as a bare `ValueError`. -/
theorem c7_backend_valueerror_not_wrapped :
    capture { outputDir := { isAbsolute := false, parts := [] },
              format := "png", config := defaultConfig }
      { year := 2026, month := 1, day := 18, hour := 12, minute := 0, second := 0 }
      (.saveError true "unknown file extension") (some "shot.png")
      = .error (.valueError "unknown file extension") ∧
    capture { outputDir := { isAbsolute := false, parts := [] },
              format := "png", config := defaultConfig }
      { year := 2026, month := 1, day := 18, hour := 12, minute := 0, second := 0 }
      (.saveError false "disk full") (some "shot.png")
      = .error (.runtimeError ("Failed to capture screenshot: " ++ "disk full")) ∧
    capture { outputDir := { isAbsolute := false, parts := [] },
              format := "png", config := defaultConfig }
      { year := 2026, month := 1, day := 18, hour := 12, minute := 0, second := 0 }
      (.grabError false "screen grab failed") (some "shot.png")
      = .error (.runtimeError ("Failed to capture screenshot: " ++ "screen grab failed")) :=
  ⟨rfl, rfl, rfl⟩

/-! ### Claim C8 -/

/-- C8 counterexample: a preferences file holding the well-formed JSON
document `{}` loads fine, but construction with no `output_dir` argument
then fails fatally with `KeyError: output_dir` — so not every possible
content of the preferences file yields usable settings. -/
theorem c8_counterexample_empty_object_config :
    loadConfig (.content (.jobj [])) = .jobj [] ∧
    initSnap none "png" (.content (.jobj [])) = .error (.keyError "output_dir") :=
  ⟨rfl, rfl⟩

/-- C8 (amended): an absent, unreadable, or malformed (non-JSON)
preferences file is silently replaced by the defaults, and construction
succeeds (for any valid format and any output-directory argument,
including none).  However, a file holding well-formed JSON that is not an
object with an `output_dir` string entry makes construction fail
(`KeyError`/`TypeError`) when no output-directory argument is supplied. -/
theorem c8_defaults_on_bad_prefs_file (prefs : FileState) (a : Option String)
    (fmtArg f : String)
    (hbad : prefs = .absent ∨ prefs = .unreadable ∨ prefs = .malformed)
    (hfmt : validateFormat fmtArg = .ok f) :
    loadConfig prefs = defaultConfig ∧
    ∃ snap, initSnap a fmtArg prefs = .ok snap ∧ snap.config = defaultConfig := by
  have hload : loadConfig prefs = defaultConfig := by
    rcases hbad with rfl | rfl | rfl <;> rfl
  refine ⟨hload, ?_⟩
  have hdir : ∃ d, resolveOutputDir a (loadConfig prefs) = .ok d := by
    rw [hload]
    rcases a with _ | s
    · exact ⟨".", rfl⟩
    · by_cases hs : s = ""
      · rw [hs]
        exact ⟨".", rfl⟩
      · refine ⟨s, ?_⟩
        show (if s = "" then configOutputDir defaultConfig else Except.ok s) = Except.ok s
        rw [if_neg hs]
  obtain ⟨d, hd⟩ := hdir
  refine ⟨{ outputDir := parsePath d, format := f, config := loadConfig prefs },
    ?_, by rw [hload]⟩
  unfold initSnap
  rw [hd, hfmt]

/-- Witness for C8 (amended): a malformed preferences file plus format
`PNG` (case-insensitive) still constructs, on the default configuration. -/
theorem c8_defaults_on_bad_prefs_file_witness :
    loadConfig .malformed = defaultConfig ∧
    ∃ snap, initSnap none "PNG" .malformed = .ok snap ∧
      snap.config = defaultConfig :=
  c8_defaults_on_bad_prefs_file .malformed none "PNG" "png"
    (Or.inr (Or.inr rfl)) rfl

/-! ### Claim C9 -/

/-- C9: capture operations never mutate the persisted preferences: running
any sequence of `capture` / `capture_window` operations (no explicit save)
leaves the instance state — including the in-memory configuration — and
the preferences-file content unchanged; only the explicit `saveOp` writes
the preferences file. -/
theorem c9_capture_preserves_preferences (ops : List Op) :
    (∀ op ∈ ops, op ≠ Op.saveOp) →
    ∀ w : World, (runOps w ops).snap = w.snap ∧
      (runOps w ops).prefsFile = w.prefsFile := by
  induction ops with
  | nil =>
    intro _ w
    exact ⟨rfl, rfl⟩
  | cons op ops ih =>
    intro hnosave w
    have htail : ∀ o ∈ ops, o ≠ Op.saveOp :=
      fun o ho => hnosave o (List.mem_cons_of_mem _ ho)
    have hop : (runOp w op).snap = w.snap ∧ (runOp w op).prefsFile = w.prefsFile := by
      cases op with
      | captureOp t b fn =>
        rcases h : capture w.snap t b fn with e | p <;> simp [runOp, h]
      | captureWindowOp sys pw wf wb t b title fn =>
        rcases h : captureWindow w.snap sys pw wf wb t b title fn with e | p <;>
          simp [runOp, h]
      | saveOp => exact absurd rfl (hnosave _ (List.mem_cons_self _ _))
    have hstep : runOps w (op :: ops) = runOps (runOp w op) ops := rfl
    obtain ⟨ih1, ih2⟩ := ih htail (runOp w op)
    rw [hstep, ih1, ih2]
    exact ⟨hop.1, hop.2⟩

/-- Witness for C9: one full-screen capture followed by one (fallback)
window capture leaves the configuration and the preferences file of a
concrete world untouched. -/
theorem c9_capture_preserves_preferences_witness :
    (runOps
      { snap := { outputDir := { isAbsolute := false, parts := [] },
                  format := "png", config := defaultConfig },
        prefsFile := none, imageWrites := [] }
      [Op.captureOp
        { year := 2026, month := 1, day := 18, hour := 12, minute := 0, second := 0 }
        .ok (some "pic"),
       Op.captureWindowOp "Linux" false false .ok
        { year := 2026, month := 1, day := 18, hour := 12, minute := 0, second := 0 }
        .ok "Chrome" none]).snap =
      { outputDir := { isAbsolute := false, parts := [] },
        format := "png", config := defaultConfig } ∧
    (runOps
      { snap := { outputDir := { isAbsolute := false, parts := [] },
                  format := "png", config := defaultConfig },
        prefsFile := none, imageWrites := [] }
      [Op.captureOp
        { year := 2026, month := 1, day := 18, hour := 12, minute := 0, second := 0 }
        .ok (some "pic"),
       Op.captureWindowOp "Linux" false false .ok
        { year := 2026, month := 1, day := 18, hour := 12, minute := 0, second := 0 }
        .ok "Chrome" none]).prefsFile = none :=
  c9_capture_preserves_preferences
    [Op.captureOp
      { year := 2026, month := 1, day := 18, hour := 12, minute := 0, second := 0 }
      .ok (some "pic"),
     Op.captureWindowOp "Linux" false false .ok
      { year := 2026, month := 1, day := 18, hour := 12, minute := 0, second := 0 }
      .ok "Chrome" none]
    (by intro op hop; fin_cases hop <;> simp)
    { snap := { outputDir := { isAbsolute := false, parts := [] },
                format := "png", config := defaultConfig },
      prefsFile := none, imageWrites := [] }

end ScreenSnap
